import Mathlib

/-!
Shallow embedding of `pkg/controllers/apps/helmchart/helmchart.go`
(clusternet HelmChart controller) and proofs about its behaviour.

Pointers become values plus explicit aliasing flags; `interface{}`
payloads become a tagged variant (`RawObj`); runtime panics from failed
unchecked type assertions or nil-pointer dereferences become an explicit
`panicked` outcome; queue and logging side effects become explicit traces.
-/

/-- Desired state of a HelmChart (`HelmChartSpec`).  The concrete schema is
external to the embedded file; the controller only compares Specs for deep
structural equality (`reflect.DeepEqual`), modelled by decidable equality. -/
structure HelmChartSpec where
  repoURL : String
  chart : String
  chartVersion : String
  targetNamespace : String
deriving DecidableEq, Repr

/-- Observed state of a HelmChart (`HelmChartStatus`). -/
structure HelmChartStatus where
  phase : String
  reason : String
deriving DecidableEq, Repr

/-- A HelmChart resource.  `ObjectMeta` is inlined to its two fields the
controller reads (`Name`, `Namespace`). -/
structure HelmChart where
  Name : String
  Namespace : String
  Spec : HelmChartSpec
  Status : HelmChartStatus
deriving DecidableEq, Repr

/-- `cache.MetaNamespaceKeyFunc` on a (non-nil) HelmChart: namespaced objects
map to `namespace/name`, cluster-scoped ones to bare `name`. -/
def metaNamespaceKeyFunc (c : HelmChart) : String :=
  if c.Namespace.length > 0 then c.Namespace ++ "/" ++ c.Name else c.Name

/-- Split a character list on every occurrence of `sep` (semantics of Go's
`strings.Split` for a one-character separator: n parts for n-1 separators,
empty segments preserved). -/
def splitCharsOn (sep : Char) : List Char → List (List Char)
  | [] => [[]]
  | c :: rest =>
    let r := splitCharsOn sep rest
    if c = sep then [] :: r
    else
      match r with
      | [] => [[c]]
      | g :: gs => (c :: g) :: gs

/-- Go's `strings.Split(s, "/")`. -/
def goSplitSlash (s : String) : List String :=
  (splitCharsOn '/' s.data).map List.asString

/-- `cache.SplitMetaNamespaceKey`: split on `/`; one part means bare name,
two parts mean namespace and name, anything else is an error. -/
def splitMetaNamespaceKey (key : String) : Except String (String × String) :=
  match goSplitSlash key with
  | [name] => .ok ("", name)
  | [ns, name] => .ok (ns, name)
  | _ => .error ("unexpected key format: " ++ key)

/-- An `interface{}` notification payload: a live HelmChart, a
`cache.DeletedFinalStateUnknown` tombstone wrapping another payload, or a
value of some other type. -/
inductive RawObj
  | helmChart (c : HelmChart)
  | tombstone (key : String) (inner : RawObj)
  | other (tag : String)
deriving DecidableEq, Repr

/-- Outcome of one event-handler invocation: a key added to the workqueue, a
skipped notification (no-op, no error), a payload dropped with a non-fatal
`utilruntime.HandleError` report, or a runtime panic (failed unchecked type
assertion or nil-pointer dereference). -/
inductive HandlerResult
  | enqueued (key : String)
  | skipped
  | droppedError
  | panicked
deriving DecidableEq, Repr

/-- `addHelmChart`: `chart := obj.(*appsapi.HelmChart)` is an unchecked type
assertion, so a wrong-typed payload panics; otherwise the chart's key is
enqueued via `enqueue` / `MetaNamespaceKeyFunc`. -/
def addHelmChart (obj : RawObj) : HandlerResult :=
  match obj with
  | .helmChart c => .enqueued (metaNamespaceKeyFunc c)
  | _ => .panicked

/-- `updateHelmChart`: both `old.(*appsapi.HelmChart)` and
`cur.(*appsapi.HelmChart)` are unchecked assertions (panic on wrong type);
`reflect.DeepEqual(oldChart.Spec, newChart.Spec)` skips the enqueue,
otherwise the new chart's key is enqueued. -/
def updateHelmChart (old cur : RawObj) : HandlerResult :=
  match old with
  | .helmChart oldChart =>
    match cur with
    | .helmChart newChart =>
      if oldChart.Spec = newChart.Spec then .skipped
      else .enqueued (metaNamespaceKeyFunc newChart)
    | _ => .panicked
  | _ => .panicked

/-- `deleteHelmChart`: the outer comma-ok assertion leaves `chart` nil on a
non-HelmChart payload; a non-tombstone payload is dropped with an error, as
is a tombstone wrapping a non-HelmChart.  In the tombstone-wrapping-a-
HelmChart branch the code discards the asserted value
(`_, ok = tombstone.Obj.(*appsapi.HelmChart)`), so `chart` stays nil and the
subsequent `klog.KObj(chart)` / `enqueue(chart)` dereference a nil pointer:
a panic, not an enqueue of the tombstone's key. -/
def deleteHelmChart (obj : RawObj) : HandlerResult :=
  match obj with
  | .helmChart c => .enqueued (metaNamespaceKeyFunc c)
  | .tombstone _ inner =>
    match inner with
    | .helmChart _ => .panicked
    | _ => .droppedError
  | .other _ => .droppedError

/-- Result of `helmChartLister.HelmCharts(ns).Get(name)`: the chart, a
not-found error (`errors.IsNotFound`), or some other lookup error. -/
inductive LookupResult
  | found (c : HelmChart)
  | notFound
  | lookupErr (msg : String)
deriving DecidableEq, Repr

/-- The controller's collaborators used by the worker loop: the Local Read
Cache lookup (`helmChartLister`) and the pluggable sync handler
(`SyncHandler`, `none` = success, `some msg` = error). -/
structure Env where
  lister : String → String → LookupResult
  SyncHandler : HelmChart → Option String

/-- What one `syncHandler` call did: the error it returned, whether the
pluggable `SyncHandler` was invoked, and whether the invalid-key
`utilruntime.HandleError` report fired. -/
structure SyncOutcome where
  err : Option String
  handlerInvoked : Bool
  invalidKeyLogged : Bool
deriving DecidableEq, Repr

/-- `Controller.syncHandler`: split the key (malformed key is logged and
dropped by returning nil); look the chart up in the lister (not-found is
terminal success, other errors propagate); otherwise delegate to the
pluggable `SyncHandler`. -/
def syncHandler (env : Env) (key : String) : SyncOutcome :=
  match splitMetaNamespaceKey key with
  | .error _ => { err := none, handlerInvoked := false, invalidKeyLogged := true }
  | .ok (ns, name) =>
    match env.lister ns name with
    | .notFound => { err := none, handlerInvoked := false, invalidKeyLogged := false }
    | .lookupErr e => { err := some e, handlerInvoked := false, invalidKeyLogged := false }
    | .found chart =>
      { err := env.SyncHandler chart, handlerInvoked := true, invalidKeyLogged := false }

/-- A workqueue item (`interface{}`): the expected `namespace/name` string or
a value of some other type. -/
inductive QItem
  | str (s : String)
  | other (tag : String)
deriving DecidableEq, Repr

/-- Observable workqueue / error-reporter operations performed while
processing one item, in program order. -/
inductive QueueOp
  | done (item : QItem)
  | forget (item : QItem)
  | addRateLimited (key : String)
  | handleError
deriving DecidableEq, Repr

/-- `Controller.processNextWorkItem`.  `getResult = none` models
`Get` reporting shutdown.  Returns whether the worker loop continues plus
the ordered trace of queue / error-reporter operations.  The `defer
c.workqueue.Done(obj)` runs on every exit path of the inner closure, hence
`QueueOp.done` closes each trace of the closure; the closure's returned
error is reported by the outer `utilruntime.HandleError`. -/
def processNextWorkItem (env : Env) (getResult : Option QItem) :
    Bool × List QueueOp :=
  match getResult with
  | none => (false, [])
  | some obj =>
    let inner : List QueueOp × Option String :=
      match obj with
      | .other t =>
        ([.forget (.other t), .handleError, .done (.other t)], none)
      | .str key =>
        let so := syncHandler env key
        let syncOps : List QueueOp := if so.invalidKeyLogged then [.handleError] else []
        match so.err with
        | some e => (syncOps ++ [.addRateLimited key, .done (.str key)], some e)
        | none => (syncOps ++ [.forget (.str key), .done (.str key)], none)
    match inner.2 with
    | some _ => (true, inner.1 ++ [.handleError])
    | none => (true, inner.1)

/-- A terminal queue disposition for an item: `Forget` or `AddRateLimited`. -/
def isTerminalDisposition : QueueOp → Bool
  | .forget _ => true
  | .addRateLimited _ => true
  | _ => false

/-- Is this operation `Done` on the given item? -/
def isDoneOn (obj : QItem) : QueueOp → Bool
  | .done o => o = obj
  | _ => false

/-- An error from `UpdateStatus`: a conflict (`errors.IsConflict`) or any
other error. -/
inductive UpdateErr
  | conflict (msg : String)
  | otherErr (msg : String)
deriving DecidableEq, Repr

/-- Collaborators of `UpdateChartStatus`, indexed by attempt number: the
response of the `UpdateStatus` write for the chart passed on the i-th
attempt, and the result of the lister re-fetch performed after the i-th
failed attempt. -/
structure UpdEnv where
  updateStatus : Nat → HelmChart → Option UpdateErr
  listerGet : Nat → Except String HelmChart

/-- Explicit heap state for `UpdateChartStatus`: the value behind the
closure's `chart` pointer, the value behind the caller's pointer, whether
the two are still the same object (`DeepCopy` breaks the alias), plus
instrumentation: number of write attempts, charts passed to `UpdateStatus`
in order, and re-fetch failures logged via `utilruntime.HandleError`. -/
structure UpdState where
  localChart : HelmChart
  callerChart : HelmChart
  aliased : Bool
  attempts : Nat
  writes : List HelmChart
  refetchErrorsLogged : Nat
deriving DecidableEq, Repr

/-- One execution of `chart.Status = *status` followed by passing `chart` to
`UpdateStatus`: while the closure's pointer still aliases the caller's
object, the caller's object is mutated too. -/
def attemptWrite (st : UpdState) (status : HelmChartStatus) : UpdState :=
  let lc := { st.localChart with Status := status }
  { st with
    localChart := lc
    callerChart := if st.aliased then { st.callerChart with Status := status }
                   else st.callerChart
    attempts := st.attempts + 1
    writes := st.writes ++ [lc] }

/-- `retry.RetryOnConflict(retry.DefaultRetry, fn)` specialised to the `fn`
of `UpdateChartStatus`: run the closure up to `steps` times; success stops
with nil; after any failed write the closure re-fetches from the lister
(`chart = updated.DeepCopy()` on success, a logged non-fatal error
otherwise) and returns the write error; a non-conflict error stops the
retries; exhausting the budget returns the last conflict error. -/
def retryOnConflictLoop (env : UpdEnv) (status : HelmChartStatus) :
    Nat → Nat → Option UpdateErr → UpdState → Option UpdateErr × UpdState
  | _, 0, lastConflict, st => (lastConflict, st)
  | i, steps + 1, _, st =>
    let st1 := attemptWrite st status
    match env.updateStatus i st1.localChart with
    | none => (none, st1)
    | some e =>
      let st2 :=
        match env.listerGet i with
        | .ok updated => { st1 with localChart := updated, aliased := false }
        | .error _ =>
          { st1 with refetchErrorsLogged := st1.refetchErrorsLogged + 1 }
      match e with
      | .conflict m => retryOnConflictLoop env status (i + 1) steps (some (.conflict m)) st2
      | .otherErr m => (some (.otherErr m), st2)

/-- `retry.DefaultRetry.Steps` in client-go: five attempts. -/
def defaultRetrySteps : Nat := 5

/-- `Controller.UpdateChartStatus(chart, status)`: the closure's `chart`
variable starts as the caller's pointer (aliased), and the loop is
`RetryOnConflict` with the default retry budget. -/
def UpdateChartStatus (env : UpdEnv) (chart : HelmChart)
    (status : HelmChartStatus) : Option UpdateErr × UpdState :=
  retryOnConflictLoop env status 0 defaultRetrySteps none
    { localChart := chart, callerChart := chart, aliased := true,
      attempts := 0, writes := [], refetchErrorsLogged := 0 }

/-- Observable startup events of `Controller.Run`, in program order. -/
inductive RunEvent
  | waitForCacheSync
  | cacheSynced
  | startWorker (i : Nat)
  | blockedOnStop
  | shutDownQueue
deriving DecidableEq, Repr

/-- `Controller.Run(workers, stopCh)`: wait for the informer cache to sync;
if the wait fails, return (the deferred `ShutDown` still runs); otherwise
launch the worker goroutines and block on the stop channel. -/
def Run (workers : Nat) (cacheSyncOk : Bool) : List RunEvent :=
  [RunEvent.waitForCacheSync] ++
    (if cacheSyncOk then
      [RunEvent.cacheSynced] ++ (List.range workers).map RunEvent.startWorker ++
        [RunEvent.blockedOnStop]
    else []) ++
    [RunEvent.shutDownQueue]

/-! Concrete fixtures used by counterexamples, bug evaluations and
witnesses. -/

/-- A sample HelmChart with the given identity and status phase. -/
def mkChart (name ns phase : String) : HelmChart :=
  { Name := name, Namespace := ns,
    Spec := { repoURL := "https://charts.example.com", chart := "nginx",
              chartVersion := "1.0.0", targetNamespace := "default" },
    Status := { phase := phase, reason := "" } }

/-- The HelmChart carried inside a deletion tombstone. -/
def tombChart : HelmChart := mkChart "foo" "ns1" "Deployed"

/-- A concrete worker environment: `ns1/foo` resolves and syncs cleanly,
`bar` is gone from the cache, anything else fails the lookup. -/
def envT : Env :=
  { lister := fun ns n =>
      if ns = "ns1" ∧ n = "foo" then .found (mkChart "foo" "ns1" "Deployed")
      else if n = "bar" then .notFound
      else .lookupErr "etcdserver: request timed out",
    SyncHandler := fun c => if c.Name = "foo" then none else some "sync failed" }

/-- A status-update environment whose very first write succeeds. -/
def updEnvFirstTryOk : UpdEnv :=
  { updateStatus := fun _ _ => none, listerGet := fun _ => .error "unused" }

/-- A status-update environment where every write conflicts and every
re-fetch succeeds. -/
def updEnvAllConflicts : UpdEnv :=
  { updateStatus := fun i _ =>
      some (.conflict ("the object has been modified " ++ toString i)),
    listerGet := fun i => .ok (mkChart "foo" "ns1" ("Fetched" ++ toString i)) }

/-- A status-update environment where every write conflicts and every
re-fetch fails. -/
def updEnvNoRefetch : UpdEnv :=
  { updateStatus := fun i _ =>
      some (.conflict ("the object has been modified " ++ toString i)),
    listerGet := fun _ => .error "helmchart not found in lister" }

/-! The claims. -/

/-- C1: against the claim that `UpdateChartStatus` never mutates the
caller's chart in place, the first retry attempt executes
`chart.Status = *status` on the caller's (possibly cache-owned) object
before any `DeepCopy` has happened: after a call whose first write
succeeds, the caller's object carries the new status even though its
original status differed. -/
theorem c1_updateChartStatus_mutates_callers_chart :
    (UpdateChartStatus updEnvFirstTryOk (mkChart "foo" "ns1" "Old")
        { phase := "New", reason := "" }).1 = none ∧
    (mkChart "foo" "ns1" "Old").Status.phase = "Old" ∧
    (UpdateChartStatus updEnvFirstTryOk (mkChart "foo" "ns1" "Old")
        { phase := "New", reason := "" }).2.callerChart.Status.phase = "New" := by
  decide

/-- C2: against the claim that a tombstone wrapping a HelmChart gets its
key enqueued, `deleteHelmChart` discards the chart recovered from the
tombstone (`_, ok = tombstone.Obj.(*appsapi.HelmChart)`), leaving the
local `chart` pointer nil, and then dereferences it: the tombstone path
panics instead of enqueueing `ns1/foo`, while the plain-chart path shows
the key that should have been enqueued. -/
theorem c2_tombstone_delete_panics_instead_of_enqueueing :
    deleteHelmChart (RawObj.tombstone "ns1/foo" (RawObj.helmChart tombChart)) =
      HandlerResult.panicked ∧
    deleteHelmChart (RawObj.helmChart tombChart) =
      HandlerResult.enqueued "ns1/foo" := by
  decide

/-- C3 counterexample: an add notification whose payload is not a HelmChart
does not produce the claimed non-fatal-error drop: the unchecked type
assertion `obj.(*appsapi.HelmChart)` panics. -/
theorem c3_add_wrong_type_panics_counterexample :
    addHelmChart (RawObj.other "Pod") = HandlerResult.panicked := by
  decide

/-- C3 amended: only the delete handler tolerates malformed payloads — a
non-HelmChart, non-tombstone payload and a tombstone wrapping a
non-HelmChart are reported as non-fatal errors and dropped without an
enqueue; the add and update handlers use unchecked type assertions and
panic on any wrong-typed payload. -/
theorem c3_amended_malformed_payload_handling (t k : String) (x y : RawObj)
    (o : HelmChart) :
    deleteHelmChart (RawObj.other t) = HandlerResult.droppedError ∧
    deleteHelmChart (RawObj.tombstone k (RawObj.other t)) =
      HandlerResult.droppedError ∧
    deleteHelmChart (RawObj.tombstone k (RawObj.tombstone k x)) =
      HandlerResult.droppedError ∧
    addHelmChart (RawObj.other t) = HandlerResult.panicked ∧
    addHelmChart (RawObj.tombstone k x) = HandlerResult.panicked ∧
    updateHelmChart (RawObj.other t) y = HandlerResult.panicked ∧
    updateHelmChart (RawObj.tombstone k x) y = HandlerResult.panicked ∧
    updateHelmChart (RawObj.helmChart o) (RawObj.other t) =
      HandlerResult.panicked ∧
    updateHelmChart (RawObj.helmChart o) (RawObj.tombstone k x) =
      HandlerResult.panicked :=
  ⟨rfl, rfl, rfl, rfl, rfl, rfl, rfl, rfl, rfl⟩

/-- C4: an update notification whose old and new Specs are deeply equal is
skipped (no enqueue, whatever the Status or metadata do); when the Specs
differ, the new chart's key is enqueued. -/
theorem c4_update_spec_deep_equality_filter (o n : HelmChart) :
    (o.Spec = n.Spec →
      updateHelmChart (.helmChart o) (.helmChart n) = .skipped) ∧
    (o.Spec ≠ n.Spec →
      updateHelmChart (.helmChart o) (.helmChart n) =
        .enqueued (metaNamespaceKeyFunc n)) := by
  constructor <;> intro h <;> simp [updateHelmChart, h]

/-- C4 witness: two charts equal in Spec but different in Status are
skipped; a genuine Spec change enqueues the new chart's key. -/
theorem c4_update_spec_deep_equality_filter_witness :
    updateHelmChart (.helmChart (mkChart "foo" "ns1" "Old"))
        (.helmChart (mkChart "foo" "ns1" "New")) = .skipped ∧
    updateHelmChart (.helmChart (mkChart "foo" "ns1" "Old"))
        (.helmChart { mkChart "bar" "ns1" "Old" with
          Spec := { repoURL := "r2", chart := "c2", chartVersion := "2",
                    targetNamespace := "t2" } }) = .enqueued "ns1/bar" :=
  ⟨(c4_update_spec_deep_equality_filter (mkChart "foo" "ns1" "Old")
      (mkChart "foo" "ns1" "New")).1 (by decide),
   (c4_update_spec_deep_equality_filter (mkChart "foo" "ns1" "Old") _).2
      (by decide)⟩

/-- C5: the worker loop halts only on queue shutdown; a successful sync
leads to `Forget` with no rate-limited requeue, a failing sync leads to
`AddRateLimited` (never `Forget`) with the error surfaced to
`utilruntime.HandleError`, and in either case `processNextWorkItem`
returns true. -/
theorem c5_worker_disposition_and_loop_continuation (env : Env) (key : String) :
    (processNextWorkItem env none).1 = false ∧
    (∀ obj, (processNextWorkItem env (some obj)).1 = true) ∧
    ((syncHandler env key).err = none →
      QueueOp.forget (.str key) ∈ (processNextWorkItem env (some (.str key))).2 ∧
      ∀ k, QueueOp.addRateLimited k ∉
        (processNextWorkItem env (some (.str key))).2) ∧
    (∀ e, (syncHandler env key).err = some e →
      QueueOp.addRateLimited key ∈
        (processNextWorkItem env (some (.str key))).2 ∧
      (∀ it, QueueOp.forget it ∉
        (processNextWorkItem env (some (.str key))).2) ∧
      QueueOp.handleError ∈ (processNextWorkItem env (some (.str key))).2) := by
  refine ⟨by simp [processNextWorkItem], ?_, ?_, ?_⟩
  · intro obj
    cases obj with
    | str k => cases h : (syncHandler env k).err <;> simp [processNextWorkItem, h]
    | other t => simp [processNextWorkItem]
  · intro h
    cases h2 : (syncHandler env key).invalidKeyLogged <;>
      simp [processNextWorkItem, h, h2]
  · intro e h
    cases h2 : (syncHandler env key).invalidKeyLogged <;>
      simp [processNextWorkItem, h, h2]

/-- C5 witness: with the concrete environment, syncing `ns1/foo` succeeds
and is forgotten, while `ns1/zap` fails its lookup and is rate-limited. -/
theorem c5_worker_disposition_and_loop_continuation_witness :
    QueueOp.forget (.str "ns1/foo") ∈
      (processNextWorkItem envT (some (.str "ns1/foo"))).2 ∧
    QueueOp.addRateLimited "ns1/zap" ∈
      (processNextWorkItem envT (some (.str "ns1/zap"))).2 :=
  ⟨((c5_worker_disposition_and_loop_continuation envT "ns1/foo").2.2.1
      (by rfl)).1,
   ((c5_worker_disposition_and_loop_continuation envT "ns1/zap").2.2.2
      "etcdserver: request timed out" (by rfl)).1⟩

/-- C6: every claimed item receives exactly one terminal disposition
(`Forget` or `AddRateLimited`) and exactly one `Done` on itself, on every
exit path — including the invalid-item and malformed-key paths. -/
theorem c6_exactly_one_disposition_and_done_always (env : Env) (obj : QItem) :
    (processNextWorkItem env (some obj)).2.countP isTerminalDisposition = 1 ∧
    (processNextWorkItem env (some obj)).2.countP (isDoneOn obj) = 1 := by
  cases obj with
  | str key =>
    cases h : (syncHandler env key).err <;>
      cases h2 : (syncHandler env key).invalidKeyLogged <;>
        simp [processNextWorkItem, h, h2, List.countP_cons, List.countP_append,
          isTerminalDisposition, isDoneOn]
  | other t =>
    simp [processNextWorkItem, List.countP_cons, isTerminalDisposition, isDoneOn]

/-- C7: a key that does not split into namespace and name is logged and
dropped terminally: `syncHandler` returns no error without invoking the
pluggable handler, and the item is forgotten, never rate-limited. -/
theorem c7_malformed_key_terminal_drop (env : Env) (key e : String)
    (h : splitMetaNamespaceKey key = .error e) :
    syncHandler env key =
      { err := none, handlerInvoked := false, invalidKeyLogged := true } ∧
    QueueOp.forget (.str key) ∈ (processNextWorkItem env (some (.str key))).2 ∧
    (∀ k, QueueOp.addRateLimited k ∉
      (processNextWorkItem env (some (.str key))).2) := by
  have hs : syncHandler env key =
      { err := none, handlerInvoked := false, invalidKeyLogged := true } := by
    simp [syncHandler, h]
  refine ⟨hs, ?_, ?_⟩ <;> simp [processNextWorkItem, hs]

/-- C7 witness: the two-slash key `a/b/c` is malformed and handled
terminally. -/
theorem c7_malformed_key_terminal_drop_witness :
    syncHandler envT "a/b/c" =
      { err := none, handlerInvoked := false, invalidKeyLogged := true } ∧
    QueueOp.forget (.str "a/b/c") ∈
      (processNextWorkItem envT (some (.str "a/b/c"))).2 :=
  ⟨(c7_malformed_key_terminal_drop envT "a/b/c"
      "unexpected key format: a/b/c" (by rfl)).1,
   (c7_malformed_key_terminal_drop envT "a/b/c"
      "unexpected key format: a/b/c" (by rfl)).2.1⟩

/-- C8: a not-found cache lookup is terminal success — no error, pluggable
handler not invoked, key forgotten, never rate-limited — while any other
lookup error is returned and leads to `AddRateLimited`. -/
theorem c8_not_found_terminal_success_other_errors_requeue (env : Env)
    (key ns name : String) (h : splitMetaNamespaceKey key = .ok (ns, name)) :
    (env.lister ns name = .notFound →
      syncHandler env key =
        { err := none, handlerInvoked := false, invalidKeyLogged := false } ∧
      QueueOp.forget (.str key) ∈ (processNextWorkItem env (some (.str key))).2 ∧
      ∀ k, QueueOp.addRateLimited k ∉
        (processNextWorkItem env (some (.str key))).2) ∧
    (∀ e, env.lister ns name = .lookupErr e →
      syncHandler env key =
        { err := some e, handlerInvoked := false, invalidKeyLogged := false } ∧
      QueueOp.addRateLimited key ∈
        (processNextWorkItem env (some (.str key))).2 ∧
      QueueOp.handleError ∈ (processNextWorkItem env (some (.str key))).2) := by
  constructor
  · intro hl
    have hs : syncHandler env key =
        { err := none, handlerInvoked := false, invalidKeyLogged := false } := by
      simp [syncHandler, h, hl]
    refine ⟨hs, ?_, ?_⟩ <;> simp [processNextWorkItem, hs]
  · intro e hl
    have hs : syncHandler env key =
        { err := some e, handlerInvoked := false, invalidKeyLogged := false } := by
      simp [syncHandler, h, hl]
    refine ⟨hs, ?_, ?_⟩ <;> simp [processNextWorkItem, hs]

/-- C8 witness: `ns1/bar` is not found and handled as terminal success;
`ns1/zap` fails its lookup and is rate-limited. -/
theorem c8_not_found_terminal_success_other_errors_requeue_witness :
    syncHandler envT "ns1/bar" =
      { err := none, handlerInvoked := false, invalidKeyLogged := false } ∧
    QueueOp.addRateLimited "ns1/zap" ∈
      (processNextWorkItem envT (some (.str "ns1/zap"))).2 :=
  ⟨((c8_not_found_terminal_success_other_errors_requeue envT "ns1/bar"
      "ns1" "bar" (by rfl)).1 (by rfl)).1,
   ((c8_not_found_terminal_success_other_errors_requeue envT "ns1/zap"
      "ns1" "zap" (by rfl)).2 "etcdserver: request timed out" (by rfl)).2.1⟩

/-- C9: when every write conflicts, `UpdateChartStatus` makes exactly the
five attempts of the default retry budget and returns the last conflict
error; each retry writes `newStatus` applied onto the chart just
re-fetched from the lister; and when every re-fetch fails, the failures
are logged non-fatally while the retry sequence still runs to completion
and still returns the last conflict error. -/
theorem c9_conflict_retry_bounded_with_refetch (envA envB : UpdEnv)
    (chart : HelmChart) (status : HelmChartStatus)
    (msgs errs : Nat → String) (fetched : Nat → HelmChart)
    (hA1 : ∀ i c, envA.updateStatus i c = some (.conflict (msgs i)))
    (hA2 : ∀ i, envA.listerGet i = .ok (fetched i))
    (hB1 : ∀ i c, envB.updateStatus i c = some (.conflict (msgs i)))
    (hB2 : ∀ i, envB.listerGet i = .error (errs i)) :
    (UpdateChartStatus envA chart status).1 = some (.conflict (msgs 4)) ∧
    (UpdateChartStatus envA chart status).2.attempts = 5 ∧
    (UpdateChartStatus envA chart status).2.writes =
      { chart with Status := status } ::
        (List.range 4).map (fun i => { fetched i with Status := status }) ∧
    (UpdateChartStatus envB chart status).1 = some (.conflict (msgs 4)) ∧
    (UpdateChartStatus envB chart status).2.attempts = 5 ∧
    (UpdateChartStatus envB chart status).2.refetchErrorsLogged = 5 := by
  refine ⟨?_, ?_, ?_, ?_, ?_, ?_⟩ <;>
    simp [UpdateChartStatus, defaultRetrySteps, retryOnConflictLoop, attemptWrite,
      hA1, hA2, hB1, hB2, List.range_succ]

/-- C9 witness: with the all-conflict environments, the call reports the
fifth conflict message, and even with every re-fetch failing all five
attempts are made. -/
theorem c9_conflict_retry_bounded_with_refetch_witness :
    (UpdateChartStatus updEnvAllConflicts (mkChart "foo" "ns1" "Old")
        { phase := "New", reason := "" }).1 =
      some (.conflict "the object has been modified 4") ∧
    (UpdateChartStatus updEnvNoRefetch (mkChart "foo" "ns1" "Old")
        { phase := "New", reason := "" }).2.attempts = 5 := by
  have h := c9_conflict_retry_bounded_with_refetch updEnvAllConflicts
    updEnvNoRefetch (mkChart "foo" "ns1" "Old") { phase := "New", reason := "" }
    (fun i => "the object has been modified " ++ toString i)
    (fun _ => "helmchart not found in lister")
    (fun i => mkChart "foo" "ns1" ("Fetched" ++ toString i))
    (fun _ _ => rfl) (fun _ => rfl) (fun _ _ => rfl) (fun _ => rfl)
  exact ⟨h.1, h.2.2.2.2.1⟩

/-- C10: when the cache-sync wait fails, `Run` returns without starting any
worker; when it succeeds, every worker start appears strictly after the
cache-synced event in the startup trace. -/
theorem c10_run_gates_workers_on_cache_sync (w : Nat) :
    (∀ i, RunEvent.startWorker i ∉ Run w false) ∧
    (Run w true).get? 1 = some RunEvent.cacheSynced ∧
    (∀ k i, (Run w true).get? k = some (RunEvent.startWorker i) → 1 < k) := by
  refine ⟨?_, ?_, ?_⟩
  · intro i; simp [Run]
  · simp [Run]
  · intro k i h
    match k with
    | 0 => simp [Run] at h
    | 1 => simp [Run] at h
    | (n + 2) => omega

/-- C10 witness: with two workers, `Run` under a failed sync starts no
worker, and under a successful sync worker 0 appears after the synced
event. -/
theorem c10_run_gates_workers_on_cache_sync_witness :
    RunEvent.startWorker 0 ∉ Run 2 false ∧ (1 : Nat) < 2 :=
  ⟨(c10_run_gates_workers_on_cache_sync 2).1 0,
   (c10_run_gates_workers_on_cache_sync 2).2.2 2 0 (by decide)⟩
